import Mathlib

/-!
Verification of core WarpX components against their specification.

The development shallowly embeds the parts of the code base the claims
refer to:

* `CoarsenIO` (Source/Utils/CoarsenIO.cpp): the mesh coarsening /
  interpolation utility.  We model the WARPX_DIM_3D build, in which the
  auxiliary staggering and ratio arrays coincide with the `IntVect`
  arguments.  AMReX `IntVect` comparison operators (`>`, `>=`, `==`)
  are componentwise conjunctions (`allGT`, `allGE`, `allEQ`), which the
  model mirrors.  Real-valued mesh data is modelled with exact
  rationals `ℚ`.
* `UpdatePosition` (Particles/Pusher/UpdatePosition.H): the
  relativistic position push, over `ℝ` (it uses a square root).
* Charge deposition (declared in Particles/WarpXParticleContainer.H).
* The PSATD RZ spectral algorithm's coefficient caching
  (FieldSolver/SpectralSolver/SpectralAlgorithms/PsatdAlgorithmRZ.H).
* `InjectorDensityCustom` (Initialization/CustomDensityProb.H).
* The runtime particle-component registry of
  `WarpXParticleContainer` (`AddRealComp` / `AddIntComp`).
* `BTDiagnostics::DoDump` and `BTDiagnostics::SetSnapshotFullStatus`
  (Diagnostics/BTDiagnostics.cpp).

Fatal assertions (`WARPX_ALWAYS_ASSERT_WITH_MESSAGE`) abort the run;
they are modelled by `Except.error` carrying the assertion message, and
a function that performs checks before touching its destination is
modelled so that the checks happen before the output field exists.

The file is organised as: all definitions first, then the lemmas and
theorems about them.
-/

/-! ## CoarsenIO: IntVect model (WARPX_DIM_3D build) -/

/-- AMReX `IntVect`: three integer components. -/
def IntVect : Type := Fin 3 → ℤ

/-- Build an `IntVect` from its three components. -/
def mkVect (a b c : ℤ) : IntVect :=
  fun d => if d = 0 then a else if d = 1 then b else c

/-- AMReX `IntVect::operator>` (`allGT`): every component strictly greater. -/
def allGT (a b : IntVect) : Bool :=
  decide (b 0 < a 0) && decide (b 1 < a 1) && decide (b 2 < a 2)

/-- AMReX `IntVect::operator>=` (`allGE`): every component at least as large. -/
def allGE (a b : IntVect) : Bool :=
  decide (b 0 ≤ a 0) && decide (b 1 ≤ a 1) && decide (b 2 ≤ a 2)

/-- AMReX `IntVect::operator==` (`allEQ`): all components equal. -/
def allEQ (a b : IntVect) : Bool :=
  decide (a 0 = b 0) && decide (a 1 = b 1) && decide (a 2 = b 2)

/-- The constant `IntVect(v)`. -/
def constVect (v : ℤ) : IntVect := fun _ => v

/-- Componentwise `stag_dst - stag_src + ngrow`, the guard-cell
requirement checked by `CoarsenIO::Loop`. -/
def guardRequirement (stag_src stag_dst ngrow : IntVect) : IntVect :=
  fun d => stag_dst d - stag_src d + ngrow d

/-- Message of the first assertion in `CoarsenIO::Loop`. -/
def coarsenGuardFillMsg : String :=
  "option of filling guard cells of destination MultiFab with coarsening not supported for this interpolation"

/-- Message of the second assertion in `CoarsenIO::Loop`. -/
def coarsenGuardCellsMsg : String :=
  "source fine MultiFab does not have enough guard cells for this interpolation"

/-- The two `WARPX_ALWAYS_ASSERT_WITH_MESSAGE` checks at the top of
`CoarsenIO::Loop`, in source order:
`if (crse_ratio > IntVect(1)) ASSERT(ngrowvect == IntVect(0), ...)` then
`ASSERT(mf_src.nGrowVect() >= stag_dst - stag_src + ngrowvect, ...)`. -/
def loopChecks (ngrowvect stag_src stag_dst src_ngrow crse_ratio : IntVect) :
    Except String Unit :=
  if allGT crse_ratio (constVect 1) && !(allEQ ngrowvect (constVect 0)) then
    Except.error coarsenGuardFillMsg
  else if !(allGE src_ngrow (guardRequirement stag_src stag_dst ngrowvect)) then
    Except.error coarsenGuardCellsMsg
  else
    Except.ok ()

/-! ## CoarsenIO: the interpolation stencil

`CoarsenIO::Interp` is declared in `CoarsenIO.H`, which is not among
the sampled sources; only its call site in `CoarsenIO::Loop` is.  It is
modelled from the spec below. -/

/-- Mesh field data: value at cell `(i, j, k)`, component `n`. -/
def MeshField : Type := ℤ → ℤ → ℤ → ℕ → ℚ

/-- Modelled from the spec: number of source points averaged along one
axis by `CoarsenIO::Interp` (declared in `CoarsenIO.H`, not in the
sampled sources).  The spec describes an index-shift/linear-combination
stencil depending on the relative staggering of each axis: with no
coarsening the stencil spans the staggering offset, with coarsening it
spans the fine points enclosed by the coarse cell (two for a
cell-centered axis, one for a nodal axis). -/
def interpNumPoints (sf sc cr : ℤ) : ℕ :=
  if cr = 1 then 1 + (sf - sc).natAbs else (2 - sf).toNat

/-- Modelled from the spec: starting source index of the stencil of
`CoarsenIO::Interp` along one axis (an index shift determined by the
coarse index, the coarsening ratio and the two staggerings). -/
def interpIdxMin (ic sf sc cr : ℤ) : ℤ :=
  if cr = 1 then ic - sc * (1 - sf)
  else ic * cr + (cr / 2) * (1 - sc) - (1 - sf)

/-- Modelled from the spec: `CoarsenIO::Interp` (declared in
`CoarsenIO.H`, not in the sampled sources).  For each destination cell
it produces a component-wise weighted average — here the arithmetic
mean — of the enclosing source cells, adjusted for the staggering
offset between source and destination index types. -/
def Interp (arr_src : MeshField) (sf sc cr : IntVect) (i j k : ℤ) (comp : ℕ) : ℚ :=
  let np0 := interpNumPoints (sf 0) (sc 0) (cr 0)
  let np1 := interpNumPoints (sf 1) (sc 1) (cr 1)
  let np2 := interpNumPoints (sf 2) (sc 2) (cr 2)
  let imin := interpIdxMin i (sf 0) (sc 0) (cr 0)
  let jmin := interpIdxMin j (sf 1) (sc 1) (cr 1)
  let kmin := interpIdxMin k (sf 2) (sc 2) (cr 2)
  (∑ a ∈ Finset.range np0, ∑ b ∈ Finset.range np1, ∑ c ∈ Finset.range np2,
      arr_src (imin + a) (jmin + b) (kmin + c) comp) /
    ((np0 : ℚ) * np1 * np2)

/-- The write phase of `CoarsenIO::Loop`: for every destination cell in
the (grown tile) box `bx` and every component `n + dcomp` with
`n < ncomp`, store `Interp(arr_src, sf, sc, cr, i, j, k, n + scomp)`;
all other destination values are untouched. -/
def loopOutput (mf_dst mf_src : MeshField) (stag_src stag_dst crse_ratio : IntVect)
    (bx : ℤ → ℤ → ℤ → Bool) (dcomp scomp ncomp : ℕ) : MeshField :=
  fun i j k m =>
    if bx i j k && decide (dcomp ≤ m) && decide (m < dcomp + ncomp) then
      Interp mf_src stag_src stag_dst crse_ratio i j k (m - dcomp + scomp)
    else
      mf_dst i j k m

/-- `CoarsenIO::Loop`: run the two configuration assertions; only if
both pass, write the interpolated values into the destination.  An
assertion failure aborts before any destination cell is written. -/
def CoarsenIO_Loop (mf_dst mf_src : MeshField)
    (stag_src stag_dst src_ngrow : IntVect)
    (ngrowvect crse_ratio : IntVect)
    (bx : ℤ → ℤ → ℤ → Bool) (dcomp scomp ncomp : ℕ) : Except String MeshField :=
  match loopChecks ngrowvect stag_src stag_dst src_ngrow crse_ratio with
  | Except.error m => Except.error m
  | Except.ok _ =>
      Except.ok (loopOutput mf_dst mf_src stag_src stag_dst crse_ratio
        bx dcomp scomp ncomp)

/-- An all-ones fine-level field (used for the ratio-2 scenario). -/
def onesField : MeshField := fun _ _ _ _ => 1

/-- An all-zero destination field. -/
def zeroField : MeshField := fun _ _ _ _ => 0

/-- A small 2×2×2 coarse-level box. -/
def sampleBox : ℤ → ℤ → ℤ → Bool :=
  fun i j k =>
    decide (0 ≤ i) && decide (i < 2) && decide (0 ≤ j) && decide (j < 2) &&
    decide (0 ≤ k) && decide (k < 2)

/-! ## Particle position push (Particles/Pusher/UpdatePosition.H) -/

namespace PhysConst

/-- `PhysConst::c`, the vacuum speed of light in m/s. -/
def c : ℝ := 299792458

end PhysConst

/-- The dimensionality variants of a WarpX build (conditional
compilation: WARPX_DIM_1D_Z, 2-D Cartesian x-z, WARPX_DIM_3D,
WARPX_DIM_RZ). -/
inductive WarpXDim where
  | d1z
  | d2xz
  | d3
  | rz
deriving DecidableEq

/-- Whether the x-position update is compiled in
(`#if (AMREX_SPACEDIM >= 2)`). -/
def xActive : WarpXDim → Bool
  | WarpXDim.d1z => false
  | _ => true

/-- Whether the y-position update is compiled in
(`#if defined(WARPX_DIM_3D) || defined(WARPX_DIM_RZ)`; RZ pushes
particles in 3D). -/
def yActive : WarpXDim → Bool
  | WarpXDim.d3 => true
  | WarpXDim.rz => true
  | _ => false

/-- `UpdatePosition`: push a particle's position over one timestep given
its momenta `ux, uy, uz`; the in-place updates of `x, y, z` are modelled
by returning the new triple. -/
noncomputable def UpdatePosition (dim : WarpXDim) (x y z : ℝ)
    (ux uy uz : ℝ) (dt : ℝ) : ℝ × ℝ × ℝ :=
  let inv_c2 : ℝ := 1 / (PhysConst.c * PhysConst.c)
  let inv_gamma : ℝ := 1 / Real.sqrt (1 + (ux * ux + uy * uy + uz * uz) * inv_c2)
  ( if xActive dim then x + ux * inv_gamma * dt else x,
    if yActive dim then y + uy * inv_gamma * dt else y,
    z + uz * inv_gamma * dt )

/-- The inverse Lorentz factor exactly as the claim states it:
`1 / sqrt(1 + (ux² + uy² + uz²) / c²)`. -/
noncomputable def specInvGamma (ux uy uz : ℝ) : ℝ :=
  1 / Real.sqrt (1 + (ux ^ 2 + uy ^ 2 + uz ^ 2) / PhysConst.c ^ 2)

/-! ## Charge deposition (declared in Particles/WarpXParticleContainer.H)

The deposition kernels themselves (`doChargeDepositionShapeN` and
friends) are not among the sampled sources; only the declarations of
`WarpXParticleContainer::DepositCharge` and `sumParticleCharge` are.
The scatter is modelled from the spec. -/

/-- Deposited charge on the mesh: a finitely supported map from cell
index to charge. -/
abbrev ChargeGrid : Type := (ℤ × ℤ × ℤ) →₀ ℚ

/-- Modelled from the spec: the per-particle charge scatter of
`WarpXParticleContainer::DepositCharge` (the shape-function kernels are
not among the sampled sources).  A particle of weight `w` and species
charge `q` at position `(px, py, pz)` deposits `q·w`, split over the
(up to) 8 enclosing cells with linear (cloud-in-cell) shape-function
weights; the per-axis fractions come from the particle's offset inside
its cell. -/
noncomputable def depositParticleCharge (dx dy dz : ℚ) (q w : ℚ)
    (px py pz : ℚ) : ChargeGrid :=
  let xi : ℤ := ⌊px / dx⌋
  let yi : ℤ := ⌊py / dy⌋
  let zi : ℤ := ⌊pz / dz⌋
  let fx : ℚ := px / dx - xi
  let fy : ℚ := py / dy - yi
  let fz : ℚ := pz / dz - zi
  Finsupp.single (xi, yi, zi) (q * w * (1 - fx) * (1 - fy) * (1 - fz)) +
  Finsupp.single (xi + 1, yi, zi) (q * w * fx * (1 - fy) * (1 - fz)) +
  Finsupp.single (xi, yi + 1, zi) (q * w * (1 - fx) * fy * (1 - fz)) +
  Finsupp.single (xi + 1, yi + 1, zi) (q * w * fx * fy * (1 - fz)) +
  Finsupp.single (xi, yi, zi + 1) (q * w * (1 - fx) * (1 - fy) * fz) +
  Finsupp.single (xi + 1, yi, zi + 1) (q * w * fx * (1 - fy) * fz) +
  Finsupp.single (xi, yi + 1, zi + 1) (q * w * (1 - fx) * fy * fz) +
  Finsupp.single (xi + 1, yi + 1, zi + 1) (q * w * fx * fy * fz)

/-- Deposit a whole species: each particle is `(w, x, y, z)`;
contributions accumulate (they are summed, not overwritten). -/
noncomputable def depositAllCharges (dx dy dz q : ℚ)
    (particles : List (ℚ × ℚ × ℚ × ℚ)) : ChargeGrid :=
  particles.foldr
    (fun p acc =>
      depositParticleCharge dx dy dz q p.1 p.2.1 p.2.2.1 p.2.2.2 + acc) 0

/-- Sum of the deposited charge over all mesh cells (the quantity
`sumParticleCharge` reports). -/
noncomputable def totalCharge (g : ChargeGrid) : ℚ :=
  g.sum fun _ v => v

/-! ## PSATD RZ spectral algorithm: coefficient caching

Only the class declaration (PsatdAlgorithmRZ.H) is among the sampled
sources: it shows the cached state (`coefficients_initialized`, the
saved `m_dt`, and the `SpectralRealCoefficients` members).  The bodies
of `pushSpectralFields` and `InitializeSpectralCoefficients` are
modelled from the spec: coefficients are a deterministic per-mode
function of the k-vector and the saved timestep, computed lazily on
first use and cached for the instance's lifetime.  The analytic form of
the per-mode coefficients is abstracted as a parameter `coefFn`. -/

/-- The cached state of a `PsatdAlgorithmRZ` instance: the timestep
saved at construction, the lazy-initialization flag, and the cached
per-mode coefficient arrays (`C_coef`, `S_ck_coef`). -/
structure PsatdAlgorithmRZ where
  m_dt : ℚ
  coefficients_initialized : Bool
  C_coef : List ℚ
  S_ck_coef : List ℚ

/-- A freshly constructed instance: `coefficients_initialized` is
false and `dt` is saved for later use in
`InitializeSpectralCoefficients`. -/
def freshPsatdAlgorithmRZ (dt : ℚ) : PsatdAlgorithmRZ :=
  { m_dt := dt, coefficients_initialized := false, C_coef := [], S_ck_coef := [] }

/-- Modelled from the spec: `PsatdAlgorithmRZ::InitializeSpectralCoefficients`
(body not among the sampled sources) fills the coefficient arrays from
the k-modes and the saved `m_dt`, and marks them initialized. -/
def InitializeSpectralCoefficients (coefFn : ℚ → ℚ → ℚ × ℚ) (kmodes : List ℚ)
    (st : PsatdAlgorithmRZ) : PsatdAlgorithmRZ :=
  { st with
    coefficients_initialized := true,
    C_coef := kmodes.map fun k => (coefFn k st.m_dt).1,
    S_ck_coef := kmodes.map fun k => (coefFn k st.m_dt).2 }

/-- Per-mode field update with coefficients `c` and `s` acting on one
spectral mode `(E, B)`. -/
def applyModeUpdate (c s : ℚ) (eb : ℚ × ℚ) : ℚ × ℚ :=
  (c * eb.1 + s * eb.2, c * eb.2 - s * eb.1)

/-- Apply the per-mode update operators built from the coefficient
arrays to all spectral modes. -/
def advanceWithCoefficients (cs ss : List ℚ) (f : List (ℚ × ℚ)) : List (ℚ × ℚ) :=
  List.zipWith (fun p eb => applyModeUpdate p.1 p.2 eb) (cs.zip ss) f

/-- Modelled from the spec: `PsatdAlgorithmRZ::pushSpectralFields` (body
not among the sampled sources) lazily initializes the coefficients on
first use, then advances every spectral mode with the cached
coefficient arrays. -/
def pushSpectralFields (coefFn : ℚ → ℚ → ℚ × ℚ) (kmodes : List ℚ)
    (st : PsatdAlgorithmRZ) (f : List (ℚ × ℚ)) :
    PsatdAlgorithmRZ × List (ℚ × ℚ) :=
  let st' := if st.coefficients_initialized then st
             else InitializeSpectralCoefficients coefFn kmodes st
  (st', advanceWithCoefficients st'.C_coef st'.S_ck_coef f)

/-! ## InjectorDensityCustom (Initialization/CustomDensityProb.H) -/

/-- The `InjectorDensityCustom` constructor, in source order: declare
the local vector `v` (empty); run
`WARPX_ALWAYS_ASSERT_WITH_MESSAGE(v.size() <= 6, ...)` on it; only then
fill `v` from the input (`getArrWithParser`) and copy it into the
six-slot member array `p`.  `none` models an assertion failure.  (The
out-of-range writes `p[i]` for `i >= 6` that the copy loop performs
when more than six parameters are supplied are not representable in
this model; the claim is about the assertion only.) -/
def InjectorDensityCustom_construct (custom_profile_params : List ℚ) :
    Option (Fin 6 → ℚ) :=
  let v : List ℚ := []
  if v.length ≤ 6 then
    let v := custom_profile_params
    some fun i : Fin 6 => v.getD i 0
  else
    none

/-! ## Runtime particle-component registry
(Particles/WarpXParticleContainer.H) -/

/-- `PIdx::nattribs`, the number of built-in real attributes
(`w, ux, uy, uz` in a non-RZ build). -/
def PIdx_nattribs : ℕ := 4

/-- The registry state touched by `AddRealComp` / `AddIntComp`: the
name-to-index maps (`std::map<std::string,int>`, modelled as
association lists) and the component counts maintained by the
underlying `amrex::ParticleContainer`. -/
structure ParticleCompRegistry where
  particle_comps : List (String × ℕ)
  particle_icomps : List (String × ℕ)
  particle_runtime_comps : List (String × ℕ)
  particle_runtime_icomps : List (String × ℕ)
  numRealComps : ℕ
  numIntComps : ℕ

/-- `WarpXParticleContainer::AddRealComp(name, comm)`: if `name` is not
yet in `particle_comps`, record it at the current `NumRealComps()`,
record its runtime index, and let the base class add the new column
(incrementing `NumRealComps()`); otherwise print an info message and
change nothing. -/
def AddRealComp (nm : String) (st : ParticleCompRegistry) : ParticleCompRegistry :=
  match st.particle_comps.lookup nm with
  | none =>
      { st with
        particle_comps := (nm, st.numRealComps) :: st.particle_comps,
        particle_runtime_comps :=
          (nm, st.numRealComps - PIdx_nattribs) :: st.particle_runtime_comps,
        numRealComps := st.numRealComps + 1 }
  | some _ => st

/-- `WarpXParticleContainer::AddIntComp(name, comm)`: the integer
counterpart of `AddRealComp` (the source records
`NumIntComps() - 0` as the runtime index). -/
def AddIntComp (nm : String) (st : ParticleCompRegistry) : ParticleCompRegistry :=
  match st.particle_icomps.lookup nm with
  | none =>
      { st with
        particle_icomps := (nm, st.numIntComps) :: st.particle_icomps,
        particle_runtime_icomps :=
          (nm, st.numIntComps - 0) :: st.particle_runtime_icomps,
        numIntComps := st.numIntComps + 1 }
  | some _ => st

/-- The name of the `ux` momentum attribute (used as a sample). -/
def uxName : String := "ux"

/-- A sample registry that already contains `uxName` in both maps. -/
def regSample : ParticleCompRegistry :=
  { particle_comps := [(uxName, 1)],
    particle_icomps := [(uxName, 0)],
    particle_runtime_comps := [],
    particle_runtime_icomps := [],
    numRealComps := 4,
    numIntComps := 1 }

/-! ## Back-transformed diagnostics (Diagnostics/BTDiagnostics.cpp) -/

/-- The `BTDiagnostics` state read and written by `DoDump` and
`SetSnapshotFullStatus`.  `m_snapshot_full` and `m_lastValidZSlice` are
the per-buffer integer flags (initialized to 0); `bufferFull` and
`bufferEmpty` model the helper predicates `buffer_full` /
`buffer_empty` declared in BTDiagnostics.H (not among the sampled
sources) — their values do not affect the verified properties. -/
structure BTDiagnostics where
  m_snapshot_full : ℕ → ℤ
  m_lastValidZSlice : ℕ → ℤ
  bufferFull : ℕ → Bool
  bufferEmpty : ℕ → Bool

/-- `BTDiagnostics::DoDump(step, i_buffer, force_flush)`, clause for
clause from the source. -/
def BTDiagnostics.DoDump (st : BTDiagnostics) (step : ℤ) (i_buffer : ℕ)
    (force_flush : Bool) : Bool :=
  if step < 0 then false
  else if st.m_snapshot_full i_buffer = 1 then false
  else if st.bufferFull i_buffer || decide (st.m_lastValidZSlice i_buffer = 1) then true
  else if force_flush && !(st.bufferEmpty i_buffer) then true
  else false

/-- `BTDiagnostics::SetSnapshotFullStatus(i_buffer)`: return immediately
if the snapshot is already full; otherwise mark it full exactly when the
last valid z-slice has been filled.  This is the only place in the
sampled sources that writes `m_snapshot_full` after initialization. -/
def BTDiagnostics.SetSnapshotFullStatus (st : BTDiagnostics) (i_buffer : ℕ) :
    BTDiagnostics :=
  if st.m_snapshot_full i_buffer = 1 then st
  else if st.m_lastValidZSlice i_buffer = 1 then
    { st with m_snapshot_full := Function.update st.m_snapshot_full i_buffer 1 }
  else st

/-- A sample state whose snapshot 0 is full. -/
def btdSample : BTDiagnostics :=
  { m_snapshot_full := fun _ => 1,
    m_lastValidZSlice := fun _ => 0,
    bufferFull := fun _ => false,
    bufferEmpty := fun _ => true }

/-! ## Lemmas and theorems -/

/-- The stencil always averages at least one point along each axis,
provided the source staggering is a valid one (0 or 1). -/
lemma interpNumPoints_pos (sf sc cr : ℤ) (hsf : sf = 0 ∨ sf = 1) :
    0 < interpNumPoints sf sc cr := by
  unfold interpNumPoints
  rcases hsf with h | h <;> subst h <;> split <;> simp

/-- Averaging a spatially constant source field returns the constant,
for any staggering-derived stencil. -/
lemma Interp_const (arr_src : MeshField) (sf sc cr : IntVect) (i j k : ℤ)
    (comp : ℕ) (V : ℚ)
    (hsf : ∀ d, sf d = 0 ∨ sf d = 1)
    (hconst : ∀ i' j' k' n, arr_src i' j' k' n = V) :
    Interp arr_src sf sc cr i j k comp = V := by
  have h0 := interpNumPoints_pos (sf 0) (sc 0) (cr 0) (hsf 0)
  have h1 := interpNumPoints_pos (sf 1) (sc 1) (cr 1) (hsf 1)
  have h2 := interpNumPoints_pos (sf 2) (sc 2) (cr 2) (hsf 2)
  unfold Interp
  simp only [hconst, Finset.sum_const, Finset.card_range, nsmul_eq_mul]
  have hne : ((interpNumPoints (sf 0) (sc 0) (cr 0) : ℚ) *
      interpNumPoints (sf 1) (sc 1) (cr 1) *
      interpNumPoints (sf 2) (sc 2) (cr 2)) ≠ 0 := by
    positivity
  field_simp
  ring

/-- C1 (counterexample): calling `CoarsenIO::Loop` with a coarsening
ratio greater than 1 on one axis (ratio `(2,1,1)`) and a nonzero
guard-cell fill count `(1,1,1)` does not fire the documented
configuration error: the call succeeds, because the source guard
`crse_ratio > IntVect(1)` is AMReX's componentwise `allGT`, which is
false unless the ratio exceeds 1 on every axis. -/
theorem coarsenLoop_anisotropic_ratio_no_error :
    CoarsenIO_Loop zeroField onesField
        (mkVect 0 0 0) (mkVect 0 0 0) (mkVect 1 1 1)
        (mkVect 1 1 1) (mkVect 2 1 1) sampleBox 0 0 1 =
      Except.ok (loopOutput zeroField onesField
        (mkVect 0 0 0) (mkVect 0 0 0) (mkVect 2 1 1) sampleBox 0 0 1) ∧
    1 < mkVect 2 1 1 0 ∧ mkVect 1 1 1 0 ≠ 0 :=
  ⟨rfl, by decide, by decide⟩

/-- C1 (amended): when the guard-cell fill count is nonzero and the
coarsening ratio is greater than 1 on every axis, `CoarsenIO::Loop`
fails with the documented configuration error before writing anything;
with a ratio exceeding 1 on only some axes the restriction is not
checked. -/
theorem coarsenLoop_guardFill_error (mf_dst mf_src : MeshField)
    (stag_src stag_dst src_ngrow ngrowvect crse_ratio : IntVect)
    (bx : ℤ → ℤ → ℤ → Bool) (dcomp scomp ncomp : ℕ)
    (hratio : allGT crse_ratio (constVect 1) = true)
    (hng : allEQ ngrowvect (constVect 0) = false) :
    CoarsenIO_Loop mf_dst mf_src stag_src stag_dst src_ngrow ngrowvect
      crse_ratio bx dcomp scomp ncomp = Except.error coarsenGuardFillMsg := by
  unfold CoarsenIO_Loop loopChecks
  rw [hratio, hng]
  rfl

/-- Witness for C1 (amended): ratio `(2,2,2)` with guard fill `(1,0,0)`
fires the assertion. -/
theorem coarsenLoop_guardFill_error_witness :
    CoarsenIO_Loop zeroField onesField
        (mkVect 0 0 0) (mkVect 0 0 0) (mkVect 0 0 0)
        (mkVect 1 0 0) (mkVect 2 2 2) sampleBox 0 0 1 =
      Except.error coarsenGuardFillMsg :=
  coarsenLoop_guardFill_error zeroField onesField
    (mkVect 0 0 0) (mkVect 0 0 0) (mkVect 0 0 0)
    (mkVect 1 0 0) (mkVect 2 2 2) sampleBox 0 0 1 (by decide) (by decide)

/-- C6: if the source field's guard width is componentwise smaller than
`staggering(dest) − staggering(src) + requested_guard`, `CoarsenIO::Loop`
never returns an output field (it fails before any destination cell is
written), and whenever the guard-fill assertion does not fire first,
the error is precisely the documented insufficient-guard-cells
message. -/
theorem coarsenLoop_insufficient_guards (mf_dst mf_src : MeshField)
    (stag_src stag_dst src_ngrow ngrowvect crse_ratio : IntVect)
    (bx : ℤ → ℤ → ℤ → Bool) (dcomp scomp ncomp : ℕ)
    (hlt : ∀ d, src_ngrow d < guardRequirement stag_src stag_dst ngrowvect d) :
    (∀ f, CoarsenIO_Loop mf_dst mf_src stag_src stag_dst src_ngrow ngrowvect
        crse_ratio bx dcomp scomp ncomp ≠ Except.ok f) ∧
    ((allGT crse_ratio (constVect 1) && !(allEQ ngrowvect (constVect 0))) = false →
      CoarsenIO_Loop mf_dst mf_src stag_src stag_dst src_ngrow ngrowvect
        crse_ratio bx dcomp scomp ncomp = Except.error coarsenGuardCellsMsg) := by
  have h0 : ¬ (guardRequirement stag_src stag_dst ngrowvect 0 ≤ src_ngrow 0) :=
    not_le.mpr (hlt 0)
  have hge : allGE src_ngrow (guardRequirement stag_src stag_dst ngrowvect) = false := by
    unfold allGE
    simp [h0]
  have hchk : loopChecks ngrowvect stag_src stag_dst src_ngrow crse_ratio =
        Except.error coarsenGuardFillMsg ∨
      loopChecks ngrowvect stag_src stag_dst src_ngrow crse_ratio =
        Except.error coarsenGuardCellsMsg := by
    unfold loopChecks
    rw [hge]
    split
    · exact Or.inl rfl
    · exact Or.inr (by simp)
  constructor
  · intro f hok
    unfold CoarsenIO_Loop at hok
    rcases hchk with h | h <;> rw [h] at hok <;> exact Except.noConfusion hok
  · intro hfirst
    unfold CoarsenIO_Loop loopChecks
    rw [hfirst, hge]
    simp

/-- Witness for C6: zero source guard cells with a requested guard fill
of one cell per axis violate the requirement and produce the
insufficient-guard-cells error. -/
theorem coarsenLoop_insufficient_guards_witness :
    CoarsenIO_Loop zeroField onesField
        (mkVect 0 0 0) (mkVect 0 0 0) (mkVect 0 0 0)
        (mkVect 1 1 1) (mkVect 1 1 1) sampleBox 0 0 1 =
      Except.error coarsenGuardCellsMsg :=
  (coarsenLoop_insufficient_guards zeroField onesField
    (mkVect 0 0 0) (mkVect 0 0 0) (mkVect 0 0 0)
    (mkVect 1 1 1) (mkVect 1 1 1) sampleBox 0 0 1 (by decide)).2 (by decide)

/-- C2: for every staggering pair and coarsening ratio accepted by the
coarsen utility, coarsening a source field that holds the same value
`V` in every cell (guard cells included) writes exactly `V` into every
destination cell of the requested box and component range. -/
theorem coarsenLoop_constant_field (mf_dst mf_src : MeshField)
    (stag_src stag_dst src_ngrow ngrowvect crse_ratio : IntVect)
    (bx : ℤ → ℤ → ℤ → Bool) (dcomp scomp ncomp : ℕ) (V : ℚ) (g : MeshField)
    (hsf : ∀ d, stag_src d = 0 ∨ stag_src d = 1)
    (_hsc : ∀ d, stag_dst d = 0 ∨ stag_dst d = 1)
    (_hcr : ∀ d, 1 ≤ crse_ratio d)
    (hconst : ∀ i j k n, mf_src i j k n = V)
    (hok : CoarsenIO_Loop mf_dst mf_src stag_src stag_dst src_ngrow ngrowvect
      crse_ratio bx dcomp scomp ncomp = Except.ok g) :
    ∀ i j k n, bx i j k = true → dcomp ≤ n → n < dcomp + ncomp →
      g i j k n = V := by
  have hg : g = loopOutput mf_dst mf_src stag_src stag_dst crse_ratio
      bx dcomp scomp ncomp := by
    unfold CoarsenIO_Loop at hok
    cases hchk : loopChecks ngrowvect stag_src stag_dst src_ngrow crse_ratio with
    | error m => rw [hchk] at hok; exact Except.noConfusion hok
    | ok u => rw [hchk] at hok; exact (Except.ok.inj hok).symm
  subst hg
  intro i j k n hbx hn1 hn2
  have hcond : (bx i j k && decide (dcomp ≤ n) && decide (n < dcomp + ncomp)) = true := by
    rw [hbx, decide_eq_true hn1, decide_eq_true hn2]; rfl
  simp only [loopOutput]
  rw [if_pos hcond]
  exact Interp_const mf_src stag_src stag_dst crse_ratio i j k _ V hsf hconst

/-- Witness for C2: two refinement levels with ratio 2 — coarsening an
all-ones fine field (cell-centered staggering) into the parent level
yields 1 in a coarse cell of the requested box. -/
theorem coarsenLoop_constant_field_witness :
    loopOutput zeroField onesField
      (mkVect 0 0 0) (mkVect 0 0 0) (mkVect 2 2 2) sampleBox 0 0 1 1 1 1 0 = 1 :=
  coarsenLoop_constant_field zeroField onesField
    (mkVect 0 0 0) (mkVect 0 0 0) (mkVect 1 1 1) (mkVect 0 0 0) (mkVect 2 2 2)
    sampleBox 0 0 1 1
    (loopOutput zeroField onesField
      (mkVect 0 0 0) (mkVect 0 0 0) (mkVect 2 2 2) sampleBox 0 0 1)
    (by decide) (by decide) (by decide) (fun _ _ _ _ => rfl) rfl
    1 1 1 0 (by decide) (by decide) (by decide)

/-- C3: `UpdatePosition` computes the inverse Lorentz factor as
`1/sqrt(1 + (ux² + uy² + uz²)/c²)` and adds `u · γ⁻¹ · dt` to the
position on each spatial axis active in the build's dimensionality,
leaving the axes absent from a reduced-dimensionality build
unchanged. -/
theorem UpdatePosition_eq_spec (dim : WarpXDim) (x y z ux uy uz dt : ℝ) :
    UpdatePosition dim x y z ux uy uz dt =
      ((if xActive dim = true then x + ux * specInvGamma ux uy uz * dt else x),
       (if yActive dim = true then y + uy * specInvGamma ux uy uz * dt else y),
       z + uz * specInvGamma ux uy uz * dt) := by
  have harg : (ux * ux + uy * uy + uz * uz) * (1 / (PhysConst.c * PhysConst.c)) =
      (ux ^ 2 + uy ^ 2 + uz ^ 2) / PhysConst.c ^ 2 := by
    ring
  simp only [UpdatePosition, specInvGamma]
  rw [harg]

/-- C4: pushing a particle with zero momentum leaves every position
component unchanged, for every timestep and starting position, in every
dimensionality variant. -/
theorem UpdatePosition_zero_momentum (dim : WarpXDim) (x y z dt : ℝ) :
    UpdatePosition dim x y z 0 0 0 dt = (x, y, z) := by
  simp [UpdatePosition, Real.sqrt_one]

/-- Summing deposited charge over all cells is additive over
deposits. -/
lemma totalCharge_add (g₁ g₂ : ChargeGrid) :
    totalCharge (g₁ + g₂) = totalCharge g₁ + totalCharge g₂ :=
  Finsupp.sum_add_index' (fun _ => rfl) (fun _ _ _ => rfl)

/-- The total charge of a single-cell deposit is its value. -/
lemma totalCharge_single (a : ℤ × ℤ × ℤ) (v : ℚ) :
    totalCharge (Finsupp.single a v) = v :=
  Finsupp.sum_single_index rfl

/-- One particle's shape-function weights sum to one: the particle
deposits exactly `q·w` in total, wherever it sits in its cell
(fractions 0, i.e. a particle exactly on a cell or face boundary,
included). -/
lemma totalCharge_depositParticleCharge (dx dy dz q w px py pz : ℚ) :
    totalCharge (depositParticleCharge dx dy dz q w px py pz) = q * w := by
  simp only [depositParticleCharge, totalCharge_add, totalCharge_single]
  ring

/-- C5: for every cell size, species charge `q`, and particle list with
weights `wᵢ` at arbitrary positions (cell and face boundaries
included), the sum of the deposited charge over all mesh cells equals
`q · Σ wᵢ` exactly (the floating-point accumulation of the code is
modelled by exact rationals). -/
theorem totalCharge_depositAllCharges (dx dy dz q : ℚ)
    (particles : List (ℚ × ℚ × ℚ × ℚ)) :
    totalCharge (depositAllCharges dx dy dz q particles) =
      q * (particles.map fun p => p.1).sum := by
  induction particles with
  | nil =>
      simp [depositAllCharges, totalCharge]
  | cons p ps ih =>
      simp only [depositAllCharges, List.foldr_cons, totalCharge_add,
        totalCharge_depositParticleCharge, List.map_cons, List.sum_cons] at ih ⊢
      rw [ih]
      ring

/-- C7: advancing a field state with coefficients that were built
earlier (for the same `dt` that the instance saved at construction)
gives exactly the field output of advancing the fresh instance, which
builds its coefficients on first use: the coefficient cache does not
affect the result of the field advance.  Quantified over every
deterministic per-mode coefficient function, every k-space, every
timestep and every initial field state. -/
theorem pushSpectralFields_cache_consistent (coefFn : ℚ → ℚ → ℚ × ℚ)
    (kmodes : List ℚ) (dt : ℚ) (f : List (ℚ × ℚ)) :
    (pushSpectralFields coefFn kmodes
        (InitializeSpectralCoefficients coefFn kmodes (freshPsatdAlgorithmRZ dt)) f).2 =
      (pushSpectralFields coefFn kmodes (freshPsatdAlgorithmRZ dt) f).2 := by
  simp [pushSpectralFields, InitializeSpectralCoefficients, freshPsatdAlgorithmRZ]

/-- C8: the `InjectorDensityCustom` constructor checks
`v.size() <= 6` on the still-empty local vector, before the vector is
filled from the input, so the documented "Too many parameters"
assertion never fires: construction succeeds for every parameter list,
of any length. -/
theorem injectorDensityCustom_assert_never_fails
    (custom_profile_params : List ℚ) :
    (InjectorDensityCustom_construct custom_profile_params).isSome = true :=
  rfl

/-- C9: registering an already-present runtime attribute name is a
no-op: if `name` is in `particle_comps`, `AddRealComp` leaves the whole
registry state (both maps and the component count) unchanged, and
likewise `AddIntComp` for `particle_icomps`. -/
theorem addComp_idempotent_on_existing (st : ParticleCompRegistry) (nm : String) :
    ((st.particle_comps.lookup nm).isSome = true → AddRealComp nm st = st) ∧
    ((st.particle_icomps.lookup nm).isSome = true → AddIntComp nm st = st) := by
  constructor
  · intro h
    unfold AddRealComp
    cases hl : st.particle_comps.lookup nm with
    | none => rw [hl] at h; exact Bool.noConfusion h
    | some v => rfl
  · intro h
    unfold AddIntComp
    cases hl : st.particle_icomps.lookup nm with
    | none => rw [hl] at h; exact Bool.noConfusion h
    | some v => rfl

/-- Witness for C9: adding `ux` to a registry that already contains it
changes nothing. -/
theorem addComp_idempotent_on_existing_witness :
    AddRealComp uxName regSample = regSample ∧
    AddIntComp uxName regSample = regSample :=
  ⟨(addComp_idempotent_on_existing regSample uxName).1 rfl,
   (addComp_idempotent_on_existing regSample uxName).2 rfl⟩

/-- C10: a completed back-transformed snapshot stays completed and is
never dumped again: `SetSnapshotFullStatus` (the only writer of
`m_snapshot_full` after initialization) never resets a 1 back to 0;
whenever `m_snapshot_full[i] = 1`, `DoDump` returns false for every
step and every `force_flush`; and `DoDump` returns false for every
negative step. -/
theorem btd_snapshotFull_latch (st : BTDiagnostics) (i j : ℕ) (step : ℤ)
    (force_flush : Bool) :
    (st.m_snapshot_full i = 1 →
      (st.SetSnapshotFullStatus j).m_snapshot_full i = 1) ∧
    (st.m_snapshot_full i = 1 → st.DoDump step i force_flush = false) ∧
    (step < 0 → st.DoDump step i force_flush = false) := by
  refine ⟨?_, ?_, ?_⟩
  · intro h
    unfold BTDiagnostics.SetSnapshotFullStatus
    split
    · exact h
    · split
      · simp only [Function.update_apply]
        split
        · rfl
        · exact h
      · exact h
  · intro h
    unfold BTDiagnostics.DoDump
    rw [if_pos h]
    split
    · rfl
    · rfl
  · intro h
    unfold BTDiagnostics.DoDump
    rw [if_pos h]

/-- Witness for C10: a state with snapshot 0 full keeps it full under
`SetSnapshotFullStatus`, and `DoDump` declines both for a positive step
with `force_flush` and at initialization time (step −1). -/
theorem btd_snapshotFull_latch_witness :
    (btdSample.SetSnapshotFullStatus 0).m_snapshot_full 0 = 1 ∧
    btdSample.DoDump 7 0 true = false ∧
    btdSample.DoDump (-1) 0 true = false :=
  ⟨(btd_snapshotFull_latch btdSample 0 0 7 true).1 rfl,
   (btd_snapshotFull_latch btdSample 0 0 7 true).2.1 rfl,
   (btd_snapshotFull_latch btdSample 0 0 (-1) true).2.2 (by decide)⟩
